import Mathlib

/-!
Verification of the booking/allocation core of the IELTS test-center portal.

The definitions below are a shallow embedding of the allocation subsystem in
src/App.tsx and src/types.ts: the session directory, the speaking slot grid,
the booking allocator for registered students (component AvailableTests) and
for paid guests (component PaidTestManager), and the per-student balance
ledger.  JavaScript strings are modelled as Lean String values, with the
empty string standing for both an empty and an undefined (falsy) field.
JavaScript numbers holding counters are modelled as Nat (capacities, counts)
and Int (balances, which the code can drive negative).
-/

namespace Booking

/-- Module types, from the TestType enum in src/types.ts. -/
inductive TestType where
  | LISTENING
  | READING
  | WRITING
  | SPEAKING
  | MOCK
deriving DecidableEq, Repr

/-- Registration statuses, from the RegistrationStatus enum in src/types.ts. -/
inductive RegistrationStatus where
  | PENDING
  | CONFIRMED
  | CANCELLED
  | COMPLETED
deriving DecidableEq, Repr

/-- Gender values, from the Gender enum in src/types.ts. -/
inductive Gender where
  | MALE
  | FEMALE
  | OTHERS
deriving DecidableEq, Repr

/-- Staff roles, from the UserRole enum in src/types.ts. -/
inductive UserRole where
  | STUDENT
  | VIEWER
  | MODERATOR
  | CO_ADMIN
  | ADMIN
deriving DecidableEq, Repr

/-- Per-student remaining-test counters, from the RemainingTests interface in
src/types.ts.  The counters are Int because the decrement in the allocator is
unclamped. -/
structure RemainingTests where
  listening : Int
  reading : Int
  writing : Int
  speaking : Int
  mock : Int
deriving DecidableEq, Repr

/-- A student record, from the Student interface in src/types.ts. -/
structure Student where
  user_id : String
  name : String
  phone : String
  gender : Gender
  avatar_url : String
  batch_number : String
  username : String
  password : String
  remaining_tests : RemainingTests
  created_by : String
  created_at : String
  expiry_date : String
deriving DecidableEq, Repr

/-- An administrator record, from the Admin interface in src/types.ts. -/
structure Admin where
  admin_id : String
  username : String
  password : String
  role : UserRole
  created_by : String
  created_at : String
deriving DecidableEq, Repr

/-- A test session, from the TestSchedule interface in src/types.ts. -/
structure TestSchedule where
  test_id : String
  test_type : TestType
  test_day : String
  test_date : String
  test_time : String
  room_number : String
  max_capacity : Nat
  current_registrations : Nat
  created_by : String
  is_closed : Bool
  is_deleted : Bool
deriving DecidableEq, Repr

/-- A booking, from the Registration interface in src/types.ts together with
the extra fields the allocator attaches at creation time (speaking slot for
Speaking and Mock sessions, guest identity for paid bookings).  Fields that
the code leaves undefined are the empty string here. -/
structure Registration where
  reg_id : String
  user_id : String
  test_id : String
  module_type : TestType
  registration_date : String
  status : RegistrationStatus
  speaking_date : String := ""
  speaking_time : String := ""
  speaking_room : String := ""
  guest_name : String := ""
  guest_phone : String := ""
deriving DecidableEq, Repr

/-- A published result, from the Result interface in src/types.ts.  Scores
are not touched by the allocator; they are carried as optional values. -/
structure Result where
  result_id : String
  user_id : String
  test_id : String
  listening_score : Option Int := none
  reading_score : Option Int := none
  writing_score : Option Int := none
  speaking_score : Option Int := none
  overall_score : Option Int := none
  published_date : String := ""
  published_by : String := ""
deriving DecidableEq, Repr

/-- The whole in-memory application state, from the AppState interface in
src/App.tsx. -/
structure AppState where
  students : List Student
  admins : List Admin
  tests : List TestSchedule
  registrations : List Registration
  results : List Result
  isSystemLocked : Bool := false
deriving DecidableEq, Repr

/-- The fixed catalog of speaking time labels (SPEAKING_TIMES in
src/App.tsx). -/
def SPEAKING_TIMES : List String :=
  ["10:40 AM", "11:00 AM", "11:20 AM", "11:40 AM",
   "12:00 PM", "12:20 PM", "12:40 PM",
   "02:10 PM", "02:30 PM", "02:50 PM", "03:10 PM", "03:30 PM", "03:50 PM",
   "04:10 PM", "04:30 PM", "04:50 PM", "05:10 PM", "05:30 PM", "05:50 PM",
   "06:10 PM", "06:30 PM"]

/-- The fixed ordered room list (SPEAKING_ROOMS in src/App.tsx). -/
def SPEAKING_ROOMS : List String := ["Room No: 01", "Room No: 02", "Room No: 03"]

/-- Gregorian leap-year test, part of the calendar model behind the
JavaScript Date arithmetic used by testSpeakingDates. -/
def isLeapYear (y : Nat) : Bool :=
  (y % 4 == 0 && y % 100 != 0) || y % 400 == 0

/-- Number of days in a Gregorian month. -/
def daysInMonth (y m : Nat) : Nat :=
  if m == 2 then (if isLeapYear y then 29 else 28)
  else if m == 4 || m == 6 || m == 9 || m == 11 then 30
  else 31

/-- The calendar day after a (year, month, day) triple. -/
def nextCalendarDay : Nat × Nat × Nat → Nat × Nat × Nat
  | (y, m, d) =>
    if d < daysInMonth y m then (y, m, d + 1)
    else if m < 12 then (y, m + 1, 1)
    else (y + 1, 1, 1)

/-- The calendar day before a (year, month, day) triple. -/
def prevCalendarDay : Nat × Nat × Nat → Nat × Nat × Nat
  | (y, m, d) =>
    if 1 < d then (y, m, d - 1)
    else if 1 < m then (y, m - 1, daysInMonth y (m - 1))
    else (y - 1, 12, 31)

/-- Splits a character list at each dash, accumulator-style. -/
def splitDashAux : List Char → List Char → List (List Char)
  | [], acc => [acc.reverse]
  | c :: cs, acc =>
    if c = '-' then acc.reverse :: splitDashAux cs []
    else splitDashAux cs (c :: acc)

/-- Reads a run of decimal digits as a number; any non-digit fails. -/
def parseNatAux : List Char → Nat → Option Nat
  | [], n => some n
  | c :: cs, n =>
    if c.isDigit then parseNatAux cs (n * 10 + (c.toNat - 48))
    else none

/-- Reads a non-empty all-digit character list as a number. -/
def parseNatDigits : List Char → Option Nat
  | [] => none
  | l => parseNatAux l 0

/-- Parses an ISO date string of the shape year-month-day into a
(year, month, day) triple. -/
def parseISODate (s : String) : Option (Nat × Nat × Nat) :=
  match splitDashAux s.data [] with
  | [ys, ms, ds] =>
    match parseNatDigits ys, parseNatDigits ms, parseNatDigits ds with
    | some y, some m, some d => some (y, m, d)
    | _, _, _ => none
  | _ => none

/-- Decimal digits of a number, most significant first; fuel-driven so the
kernel can evaluate it. -/
def natDigitsAux : Nat → Nat → List Char → List Char
  | 0, _, acc => acc
  | fuel + 1, n, acc =>
    if n < 10 then Char.ofNat (48 + n) :: acc
    else natDigitsAux fuel (n / 10) (Char.ofNat (48 + n % 10) :: acc)

/-- Decimal digits of a number. -/
def natToDigits (n : Nat) : List Char := natDigitsAux (n + 1) n []

/-- Left-pads a digit list with zeros to a given width. -/
def padZeros (w : Nat) (l : List Char) : List Char :=
  List.replicate (w - l.length) '0' ++ l

/-- Renders a (year, month, day) triple in the ISO shape produced by
toISOString, with a four-digit year and two-digit month and day. -/
def renderISODate : Nat × Nat × Nat → String
  | (y, m, d) =>
    ⟨padZeros 4 (natToDigits y) ++ '-' :: (padZeros 2 (natToDigits m) ++ '-' :: padZeros 2 (natToDigits d))⟩

/-- Applies a calendar-day shift to an ISO date string.  This models the
JavaScript idiom used at src/App.tsx lines 1192 and 1250: build a Date from
the session date, move it by one day with setDate, and read the date part of
toISOString back; on a well-formed input that is exactly one calendar day of
Gregorian arithmetic.  A string that does not parse is returned unchanged. -/
def shiftDayISO (f : Nat × Nat × Nat → Nat × Nat × Nat) (s : String) : String :=
  match parseISODate s with
  | some ymd => renderISODate (f ymd)
  | none => s

/-- The ISO date one calendar day before the given one. -/
def prevDayISO : String → String := shiftDayISO prevCalendarDay

/-- The ISO date one calendar day after the given one. -/
def nextDayISO : String → String := shiftDayISO nextCalendarDay

/-- Candidate speaking dates for a session, from the testSpeakingDates memo
at src/App.tsx lines 1192 (PaidTestManager) and 1250 (AvailableTests): for a
Mock session, the day before and the day after the session date, in that
order; for every other module type, the session date itself. -/
def testSpeakingDates (t : TestSchedule) : List String :=
  if t.test_type = TestType.MOCK then [prevDayISO t.test_date, nextDayISO t.test_date]
  else [t.test_date]

/-- The encoded key of a speaking slot, date-room-time joined by vertical
bars, exactly the template string used at src/App.tsx lines 1193, 1221, 1252
and 1267. -/
def slotKey (d r tm : String) : String := d ++ "|" ++ r ++ "|" ++ tm

/-- The occupied speaking slots of a session, from the occupiedSlots memo at
src/App.tsx lines 1193 and 1252: every registration of the session whose
speaking date, time and room are all non-empty contributes its encoded
slot key. -/
def occupiedSlots (regs : List Registration) (testId : String) : List String :=
  (regs.filter fun r =>
    r.test_id == testId && r.speaking_date != "" && r.speaking_time != "" && r.speaking_room != "").map
    fun r => slotKey r.speaking_date r.speaking_room r.speaking_time

/-- Room resolution for a chosen (date, time): the first room of the fixed
list whose slot key is not occupied, from the inline room lookup at
src/App.tsx lines 1221 and 1267. -/
def findFreeRoom (regs : List Registration) (testId d tm : String) : Option String :=
  SPEAKING_ROOMS.find? fun r => !(occupiedSlots regs testId).contains (slotKey d r tm)

/-- Whether a module type carries a speaking slot, from the repeated test
for Mock or Speaking in both booking components. -/
def isSpeakingModule : TestType → Bool
  | TestType.MOCK => true
  | TestType.SPEAKING => true
  | _ => false

/-- Errors an allocation attempt can surface.  incorrect, full and
selectSpeaking are the three error strings of the student confirm handler at
src/App.tsx line 1271; fillAll is the guest confirm guard at line 1229;
notInitiable models a disabled or absent booking button on the student card
at lines 1277 and 1278; notListed models a session filtered out of the paid
list at line 1191. -/
inductive BookErr where
  | incorrect
  | full
  | selectSpeaking
  | fillAll
  | notInitiable
  | notListed
deriving DecidableEq, Repr

/-- Balance counter of a student for a module type, following the dynamic
key lookup remaining_tests of the lower-cased test type used in
src/App.tsx. -/
def balanceOf (r : RemainingTests) : TestType → Int
  | TestType.LISTENING => r.listening
  | TestType.READING => r.reading
  | TestType.WRITING => r.writing
  | TestType.SPEAKING => r.speaking
  | TestType.MOCK => r.mock

/-- Unclamped decrement of the balance counter for a module type, from the
spread update at src/App.tsx line 702. -/
def decrementBalance (r : RemainingTests) : TestType → RemainingTests
  | TestType.LISTENING => { r with listening := r.listening - 1 }
  | TestType.READING => { r with reading := r.reading - 1 }
  | TestType.WRITING => { r with writing := r.writing - 1 }
  | TestType.SPEAKING => { r with speaking := r.speaking - 1 }
  | TestType.MOCK => { r with mock := r.mock - 1 }

/-- Whether a user already holds a booking for a session, from the
registered guard at src/App.tsx line 1277. -/
def registeredFor (regs : List Registration) (uid testId : String) : Bool :=
  regs.any fun r => r.user_id == uid && r.test_id == testId

/-- The booking record built by the student onRegister handler at
src/App.tsx lines 687 to 697.  The speaking slot object is always passed by
the confirm handler, so the three speaking fields are simply the component
state, possibly empty. -/
def mkStudentReg (regId : String) (student : Student) (t : TestSchedule)
    (today d tm room : String) : Registration :=
  { reg_id := regId
    user_id := student.user_id
    test_id := t.test_id
    module_type := t.test_type
    registration_date := today
    status := RegistrationStatus.CONFIRMED
    speaking_date := d
    speaking_time := tm
    speaking_room := room }

/-- The state update of the student onRegister handler at src/App.tsx lines
698 to 703: append the booking, bump the counter of every session with the
target id, and decrement the booker's balance for the session's module
type. -/
def applyStudentBooking (s : AppState) (student : Student) (t : TestSchedule)
    (reg : Registration) : AppState :=
  { s with
    registrations := s.registrations ++ [reg]
    tests := s.tests.map fun x =>
      if x.test_id == t.test_id then { x with current_registrations := x.current_registrations + 1 }
      else x
    students := s.students.map fun st =>
      if st.user_id == student.user_id then
        { st with remaining_tests := decrementBalance st.remaining_tests t.test_type }
      else st }

/-- The student confirm handler at src/App.tsx line 1271 composed with the
onRegister effects at lines 684 to 705: check the portal password, re-check
capacity, require a chosen speaking date and time for Mock and Speaking
sessions, then apply the booking.  regId and today stand for the freshly
generated booking id and the current date. -/
def studentConfirm (s : AppState) (student : Student) (t : TestSchedule)
    (passInput regId today d tm room : String) :
    Except BookErr (AppState × Registration) :=
  if passInput ≠ student.password then .error .incorrect
  else if t.current_registrations ≥ t.max_capacity then .error .full
  else if isSpeakingModule t.test_type && (d == "" || tm == "") then .error .selectSpeaking
  else
    let reg := mkStudentReg regId student t today d tm room
    .ok (applyStudentBooking s student t reg, reg)

/-- Whether the student card at src/App.tsx lines 1277 and 1278 lets a
booking attempt start: the session is not soft-deleted (the list filter at
line 1249 with an empty search), the student holds no booking for it, the
balance for its module type is positive, the session is not manually closed,
the account is not expired, and the session is not full. -/
def canInitiateStudent (s : AppState) (student : Student) (t : TestSchedule)
    (expired : Bool) : Bool :=
  !t.is_deleted
    && !registeredFor s.registrations student.user_id t.test_id
    && !(balanceOf student.remaining_tests t.test_type ≤ 0)
    && !t.is_closed
    && !expired
    && !(t.current_registrations ≥ t.max_capacity)

/-- A whole student booking attempt: the card guards followed by the confirm
handler.  In the single-threaded client the state read by the guards is the
state the confirm handler runs against. -/
def studentBook (s : AppState) (student : Student) (t : TestSchedule)
    (expired : Bool) (passInput regId today d tm room : String) :
    Except BookErr (AppState × Registration) :=
  if !canInitiateStudent s student t expired then .error .notInitiable
  else studentConfirm s student t passInput regId today d tm room

/-- Whether a session appears in the paid-test booking list, from the filter
at src/App.tsx line 1191 with an empty search: not soft-deleted, not closed,
and strictly below capacity. -/
def paidBookable (t : TestSchedule) : Bool :=
  !t.is_deleted && !t.is_closed && t.current_registrations < t.max_capacity

/-- The booking record built by the guest onRegister handler at src/App.tsx
lines 654 to 666.  The guest identifier is the GUEST- tag followed by the
millisecond timestamp; the speaking slot object is passed only for Mock and
Speaking sessions (possibly with empty fields), and is absent otherwise. -/
def mkGuestReg (regId : String) (t : TestSchedule) (today : String)
    (guestName guestPhone : String) (slot : Option (String × String × String))
    (now : Nat) : Registration :=
  { reg_id := regId
    user_id := "GUEST-" ++ toString now
    test_id := t.test_id
    module_type := t.test_type
    registration_date := today
    status := RegistrationStatus.CONFIRMED
    speaking_date := match slot with | some (d, _, _) => d | none => ""
    speaking_room := match slot with | some (_, r, _) => r | none => ""
    speaking_time := match slot with | some (_, _, tm) => tm | none => ""
    guest_name := guestName
    guest_phone := guestPhone }

/-- The guest confirm handler at src/App.tsx line 1229 composed with the
onRegister effects at lines 653 to 672: require a guest name and phone, then
unconditionally append the booking and bump the counter of every session
with the target id.  No capacity, balance or speaking-slot condition is
checked here. -/
def guestConfirm (s : AppState) (t : TestSchedule)
    (guestName guestPhone d tm room : String) (regId : String) (now : Nat)
    (today : String) : Except BookErr (AppState × Registration) :=
  if guestName == "" || guestPhone == "" then .error .fillAll
  else
    let slot := if isSpeakingModule t.test_type then some (d, room, tm) else none
    let reg := mkGuestReg regId t today guestName guestPhone slot now
    .ok ({ s with
            registrations := s.registrations ++ [reg]
            tests := s.tests.map fun x =>
              if x.test_id == t.test_id then
                { x with current_registrations := x.current_registrations + 1 }
              else x },
         reg)

/-- A whole guest booking attempt: a session can be picked only from the
filtered paid-test list, after which the confirm handler runs. -/
def guestBook (s : AppState) (t : TestSchedule)
    (guestName guestPhone d tm room : String) (regId : String) (now : Nat)
    (today : String) : Except BookErr (AppState × Registration) :=
  if !paidBookable t then .error .notListed
  else guestConfirm s t guestName guestPhone d tm room regId now today

/-- The application state the client holds after an attempt: the new state
on success, the old state untouched on any failure (setAppData is only
called inside onRegister). -/
def stateAfter (s : AppState) : Except BookErr (AppState × Registration) → AppState
  | .ok (s', _) => s'
  | .error _ => s

/-- Looks a session up by id, first match. -/
def getTest (s : AppState) (testId : String) : Option TestSchedule :=
  s.tests.find? fun x => x.test_id == testId

/-- Looks a student up by id, first match. -/
def getStudent (s : AppState) (uid : String) : Option Student :=
  s.students.find? fun st => st.user_id == uid

/-- A booking carries a speaking assignment when all three speaking fields
are non-empty, the condition of the occupiedSlots filter. -/
def HasAssignment (r : Registration) : Prop :=
  r.speaking_date ≠ "" ∧ r.speaking_time ≠ "" ∧ r.speaking_room ≠ ""

/-- Two bookings clash when they belong to the same session, both carry a
speaking assignment, and their (date, room, time) triples coincide;
NoSlotClash says they do not. -/
def NoSlotClash (r1 r2 : Registration) : Prop :=
  r1.test_id = r2.test_id → HasAssignment r1 → HasAssignment r2 →
    ¬(r1.speaking_date = r2.speaking_date ∧ r1.speaking_room = r2.speaking_room ∧
      r1.speaking_time = r2.speaking_time)

/-- The speaking-slot uniqueness invariant: no two bookings of the same
session with speaking assignments share a (date, room, time) triple. -/
def SlotsUnique (regs : List Registration) : Prop :=
  List.Pairwise NoSlotClash regs

/-- A string free of the vertical bar that the slot keys are joined with. -/
abbrev BarFree (s : String) : Prop := '|' ∉ s.data

/-- All stored speaking dates and rooms of a registration list are free of
the vertical bar, which holds in every state the interface can build: dates
come from ISO strings, rooms from the fixed list. -/
abbrev BarFreeRegs (regs : List Registration) : Prop :=
  ∀ reg ∈ regs, BarFree reg.speaking_date ∧ BarFree reg.speaking_room

/-- Whether some existing booking of the session carries the identical
(date, room, time) triple.  This definition follows the spec's words in
section 4.2 and is compared against the slot-key encoding the code uses. -/
def roomTaken (regs : List Registration) (testId d tm r : String) : Bool :=
  regs.any fun reg =>
    reg.test_id == testId && reg.speaking_date != "" && reg.speaking_time != "" &&
      reg.speaking_room != "" && reg.speaking_date == d && reg.speaking_room == r &&
      reg.speaking_time == tm

/-- A guest-generated subject identifier: the GUEST- tag followed by some
suffix, the shape produced by the guest onRegister handler. -/
def isGuestGenerated (uid : String) : Prop :=
  ∃ rest : String, uid = "GUEST-" ++ rest

/-- One allocation step: a whole student or guest booking attempt that
succeeds.  The extra premise on each constructor records how the interface
wires the slot choice: a time can only be selected through an enabled time
button, whose handler stores the room that the free-room scan resolved for
the chosen (date, time) against the current registrations. -/
inductive AllocStep : AppState → AppState → Prop where
  | student (s : AppState) (student : Student) (t : TestSchedule) (expired : Bool)
      (pass regId today d tm room : String) (s' : AppState) (reg : Registration)
      (hw : tm ≠ "" → findFreeRoom s.registrations t.test_id d tm = some room)
      (h : studentBook s student t expired pass regId today d tm room = .ok (s', reg)) :
      AllocStep s s'
  | guest (s : AppState) (t : TestSchedule) (guestName guestPhone d tm room regId : String)
      (now : Nat) (today : String) (s' : AppState) (reg : Registration)
      (hw : tm ≠ "" → findFreeRoom s.registrations t.test_id d tm = some room)
      (h : guestBook s t guestName guestPhone d tm room regId now today = .ok (s', reg)) :
      AllocStep s s'

/-- States reachable from a starting state by a sequence of successful
allocations. -/
inductive AllocReachable : AppState → AppState → Prop where
  | refl (s : AppState) : AllocReachable s s
  | step (s s' s'' : AppState) : AllocReachable s s' → AllocStep s' s'' → AllocReachable s s''

/-- Sample balance counters used by the concrete instances below. -/
def sampleBalances : RemainingTests :=
  { listening := 2, reading := 2, writing := 2, speaking := 2, mock := 2 }

/-- A sample registered student. -/
def sampleStudent : Student :=
  { user_id := "S1", name := "Student One", phone := "0170000000",
    gender := Gender.FEMALE, avatar_url := "", batch_number := "B1",
    username := "S1", password := "pw1", remaining_tests := sampleBalances,
    created_by := "HA.admin01", created_at := "", expiry_date := "2030-01-01" }

/-- A sample open Mock session with one seat. -/
def sampleMockTest : TestSchedule :=
  { test_id := "T1", test_type := TestType.MOCK, test_day := "Saturday",
    test_date := "2024-06-15", test_time := "09:00 AM", room_number := "Hall 1",
    max_capacity := 1, current_registrations := 0, created_by := "HA.admin01",
    is_closed := false, is_deleted := false }

/-- A sample Listening session that is already full. -/
def sampleFullTest : TestSchedule :=
  { test_id := "T2", test_type := TestType.LISTENING, test_day := "Monday",
    test_date := "2024-07-01", test_time := "10:00 AM", room_number := "Hall 2",
    max_capacity := 1, current_registrations := 1, created_by := "HA.admin01",
    is_closed := false, is_deleted := false }

/-- A sample open Listening session. -/
def sampleListeningTest : TestSchedule :=
  { test_id := "T3", test_type := TestType.LISTENING, test_day := "Monday",
    test_date := "2024-06-15", test_time := "10:00 AM", room_number := "Hall 3",
    max_capacity := 10, current_registrations := 0, created_by := "HA.admin01",
    is_closed := false, is_deleted := false }

/-- A sample application state holding the three sessions and the student. -/
def sampleState : AppState :=
  { students := [sampleStudent], admins := [], tests := [sampleMockTest, sampleFullTest, sampleListeningTest],
    registrations := [], results := [], isSystemLocked := false }

/-- The result of a sample successful student booking of the Mock session. -/
def wStudentRes : Except BookErr (AppState × Registration) :=
  studentConfirm sampleState sampleStudent sampleMockTest "pw1" "R1" "2024-06-01"
    "2024-06-14" "10:40 AM" "Room No: 01"

/-- The booking record of the sample successful student booking. -/
def wReg : Registration :=
  mkStudentReg "R1" sampleStudent sampleMockTest "2024-06-01" "2024-06-14" "10:40 AM" "Room No: 01"

/-- The state after the sample successful student booking. -/
def wState2 : AppState := stateAfter sampleState wStudentRes

/-- A sample student whose balance counters are all used up. -/
def sampleBrokeStudent : Student :=
  { sampleStudent with
    user_id := "S2", username := "S2",
    remaining_tests := { listening := 0, reading := 0, writing := 0, speaking := 0, mock := 0 } }

/-- Strict lexicographic order on (year, month, day) triples: the plain
sense in which one calendar date lies before another. -/
def dateTripleLt : Nat × Nat × Nat → Nat × Nat × Nat → Prop
  | (y, m, d), (y', m', d') => y < y' ∨ (y = y' ∧ (m < m' ∨ (m = m' ∧ d < d')))

/-- The result of a sample successful guest booking of the open Listening
session. -/
def wGuestRes : Except BookErr (AppState × Registration) :=
  guestBook sampleState sampleListeningTest "Guest Three" "0173" "" "" "" "R4" 11 "2024-06-02"

/-- The booking record of the sample successful guest booking. -/
def wGuestReg : Registration :=
  mkGuestReg "R4" sampleListeningTest "2024-06-02" "Guest Three" "0173" none 11

/-- The state after the sample successful guest booking. -/
def wGuestState : AppState := stateAfter sampleState wGuestRes

/-- Strings with equal character data are equal. -/
theorem string_data_eq {s t : String} (h : s.data = t.data) : s = t := by
  cases s; cases t; simp only at h; rw [h]

/-- The character data of a slot key is the three fields joined by bars. -/
theorem slotKey_data (d r tm : String) :
    (slotKey d r tm).data = d.data ++ '|' :: (r.data ++ '|' :: tm.data) := by
  simp [slotKey, String.data_append]

/-- Splitting a bar-joined pair of character lists is unambiguous when the
left parts are bar-free. -/
theorem append_bar_inj :
    ∀ (a : List Char) (b a' b' : List Char), '|' ∉ a → '|' ∉ a' →
      a ++ '|' :: b = a' ++ '|' :: b' → a = a' ∧ b = b' := by
  intro a
  induction a with
  | nil =>
    intro b a' b' _ ha' h
    cases a' with
    | nil => simpa using h
    | cons c cs =>
      simp only [List.nil_append, List.cons_append, List.cons.injEq] at h
      exact absurd (show ('|' : Char) ∈ c :: cs by rw [h.1]; exact List.mem_cons_self _ _) ha'
  | cons c cs ih =>
    intro b a' b' ha ha' h
    cases a' with
    | nil =>
      simp only [List.nil_append, List.cons_append, List.cons.injEq] at h
      exact absurd (show ('|' : Char) ∈ c :: cs by rw [← h.1]; exact List.mem_cons_self _ _) ha
    | cons c' cs' =>
      simp only [List.cons_append, List.cons.injEq] at h
      obtain ⟨rfl, h2⟩ := h
      have := ih b cs' b' (fun hm => ha (List.mem_cons_of_mem _ hm))
        (fun hm => ha' (List.mem_cons_of_mem _ hm)) h2
      exact ⟨by rw [this.1], this.2⟩

/-- Slot keys are injective when the date and room parts are bar-free. -/
theorem slotKey_inj {d r tm d' r' tm' : String}
    (hd : BarFree d) (hd' : BarFree d') (hr : BarFree r) (hr' : BarFree r')
    (h : slotKey d r tm = slotKey d' r' tm') : d = d' ∧ r = r' ∧ tm = tm' := by
  have hdata : (slotKey d r tm).data = (slotKey d' r' tm').data := by rw [h]
  rw [slotKey_data, slotKey_data] at hdata
  obtain ⟨h1, h2⟩ := append_bar_inj _ _ _ _ hd hd' hdata
  obtain ⟨h3, h4⟩ := append_bar_inj _ _ _ _ hr hr' h2
  exact ⟨string_data_eq h1, string_data_eq h3, string_data_eq h4⟩

/-- Membership of the occupied-slot list, element-wise. -/
theorem mem_occupiedSlots_iff {regs : List Registration} {testId k : String} :
    k ∈ occupiedSlots regs testId ↔
      ∃ r ∈ regs, r.test_id = testId ∧ r.speaking_date ≠ "" ∧ r.speaking_time ≠ "" ∧
        r.speaking_room ≠ "" ∧ slotKey r.speaking_date r.speaking_room r.speaking_time = k := by
  simp only [occupiedSlots, List.mem_map, List.mem_filter, Bool.and_eq_true, beq_iff_eq,
    bne_iff_ne, ne_eq]
  constructor
  · rintro ⟨r, ⟨hr, ⟨⟨⟨hid, hd⟩, htm⟩, hrm⟩⟩, hk⟩
    exact ⟨r, hr, hid, hd, htm, hrm, hk⟩
  · rintro ⟨r, hr, hid, hd, htm, hrm, hk⟩
    exact ⟨r, ⟨hr, ⟨⟨⟨hid, hd⟩, htm⟩, hrm⟩⟩, hk⟩

/-- List containment as membership, for strings. -/
theorem contains_eq_true_iff_mem {l : List String} {x : String} :
    l.contains x = true ↔ x ∈ l := by
  simp [List.contains, List.elem_iff]

/-- A room resolved by the free-room scan has an unoccupied slot key. -/
theorem findFreeRoom_not_taken {regs : List Registration} {testId d tm room : String}
    (h : findFreeRoom regs testId d tm = some room) :
    slotKey d room tm ∉ occupiedSlots regs testId := by
  have hp := List.find?_some h
  simp only [Bool.not_eq_true'] at hp
  intro hmem
  rw [← contains_eq_true_iff_mem] at hmem
  rw [hp] at hmem
  exact Bool.false_ne_true hmem

/-- A room resolved by the free-room scan belongs to the fixed room list. -/
theorem findFreeRoom_mem {regs : List Registration} {testId d tm room : String}
    (h : findFreeRoom regs testId d tm = some room) : room ∈ SPEAKING_ROOMS :=
  List.mem_of_find?_eq_some h

/-- A booking whose room came from the free-room scan clashes with no
existing booking. -/
theorem no_clash_of_free_room {regs : List Registration} {reg : Registration}
    (hfree : reg.speaking_time ≠ "" →
      findFreeRoom regs reg.test_id reg.speaking_date reg.speaking_time = some reg.speaking_room) :
    ∀ r ∈ regs, NoSlotClash r reg := by
  intro r hr htid hass1 hass2 hclash
  obtain ⟨hd, hrm, htm⟩ := hclash
  have h := hfree hass2.2.1
  apply findFreeRoom_not_taken h
  rw [mem_occupiedSlots_iff]
  exact ⟨r, hr, htid, hass1.1, hass1.2.1, hass1.2.2, by rw [hd, hrm, htm]⟩

/-- Appending a non-clashing booking preserves slot uniqueness. -/
theorem slotsUnique_append {regs : List Registration} {reg : Registration}
    (hinv : SlotsUnique regs) (hnew : ∀ r ∈ regs, NoSlotClash r reg) :
    SlotsUnique (regs ++ [reg]) := by
  rw [SlotsUnique, List.pairwise_append]
  exact ⟨hinv, List.pairwise_singleton _ _, fun a ha b hb => by
    rw [List.mem_singleton] at hb
    exact hb ▸ hnew a ha⟩

/-- find? commutes with a map that preserves the predicate. -/
theorem find?_map_eq {α : Type} (f : α → α) (p : α → Bool) (h : ∀ x, p (f x) = p x) :
    ∀ l : List α, (l.map f).find? p = (l.find? p).map f := by
  intro l
  induction l with
  | nil => rfl
  | cons a l ih =>
    simp only [List.map_cons, List.find?]
    rw [h a]
    cases p a with
    | true => rfl
    | false => exact ih

/-- A list maps pointwise to its image. -/
theorem forall2_map_self {α : Type} (R : α → α → Prop) (f : α → α) (h : ∀ x, R x (f x)) :
    ∀ l : List α, List.Forall₂ R l (l.map f) := by
  intro l
  induction l with
  | nil => exact List.Forall₂.nil
  | cons a l ih => exact List.Forall₂.cons (h a) ih

/-- Inversion of a successful student confirm: every guard passed and the
outputs are the built booking and the applied state. -/
theorem studentConfirm_ok {s : AppState} {student : Student} {t : TestSchedule}
    {pass regId today d tm room : String} {s' : AppState} {reg : Registration}
    (h : studentConfirm s student t pass regId today d tm room = .ok (s', reg)) :
    pass = student.password ∧ t.current_registrations < t.max_capacity ∧
      (isSpeakingModule t.test_type = true → d ≠ "" ∧ tm ≠ "") ∧
      reg = mkStudentReg regId student t today d tm room ∧
      s' = applyStudentBooking s student t reg := by
  unfold studentConfirm at h
  split_ifs at h with h1 h2 h3
  · simp only [not_not] at h1
    simp only [not_le] at h2
    simp only [Except.ok.injEq, Prod.mk.injEq] at h
    refine ⟨h1, h2, ?_, h.2.symm, by rw [← h.1, ← h.2]⟩
    intro hsp
    rw [hsp] at h3
    simp only [Bool.true_and, Bool.or_eq_true, beq_iff_eq, not_or] at h3
    exact h3

/-- Inversion of a successful whole student booking attempt. -/
theorem studentBook_ok {s : AppState} {student : Student} {t : TestSchedule}
    {expired : Bool} {pass regId today d tm room : String} {s' : AppState}
    {reg : Registration}
    (h : studentBook s student t expired pass regId today d tm room = .ok (s', reg)) :
    canInitiateStudent s student t expired = true ∧
      studentConfirm s student t pass regId today d tm room = .ok (s', reg) := by
  unfold studentBook at h
  split_ifs at h with h1
  exact ⟨by simpa using h1, h⟩

/-- Inversion of a successful guest confirm. -/
theorem guestConfirm_ok {s : AppState} {t : TestSchedule}
    {guestName guestPhone d tm room regId : String} {now : Nat} {today : String}
    {s' : AppState} {reg : Registration}
    (h : guestConfirm s t guestName guestPhone d tm room regId now today = .ok (s', reg)) :
    guestName ≠ "" ∧ guestPhone ≠ "" ∧
      reg = mkGuestReg regId t today guestName guestPhone
        (if isSpeakingModule t.test_type then some (d, room, tm) else none) now ∧
      s' = { s with
              registrations := s.registrations ++ [reg]
              tests := s.tests.map fun x =>
                if x.test_id == t.test_id then
                  { x with current_registrations := x.current_registrations + 1 }
                else x } := by
  unfold guestConfirm at h
  split_ifs at h with h1 hsp
  · simp only [Bool.or_eq_true, beq_iff_eq, not_or] at h1
    simp only [Except.ok.injEq, Prod.mk.injEq] at h
    rw [if_pos hsp]
    exact ⟨h1.1, h1.2, h.2.symm, by rw [← h.1, ← h.2]⟩
  · simp only [Bool.or_eq_true, beq_iff_eq, not_or] at h1
    simp only [Except.ok.injEq, Prod.mk.injEq] at h
    rw [if_neg hsp]
    exact ⟨h1.1, h1.2, h.2.symm, by rw [← h.1, ← h.2]⟩

/-- Inversion of a successful whole guest booking attempt. -/
theorem guestBook_ok {s : AppState} {t : TestSchedule}
    {guestName guestPhone d tm room regId : String} {now : Nat} {today : String}
    {s' : AppState} {reg : Registration}
    (h : guestBook s t guestName guestPhone d tm room regId now today = .ok (s', reg)) :
    paidBookable t = true ∧
      guestConfirm s t guestName guestPhone d tm room regId now today = .ok (s', reg) := by
  unfold guestBook at h
  split_ifs at h with h1
  exact ⟨by simpa using h1, h⟩

/-- One successful allocation step keeps the speaking-slot uniqueness
invariant. -/
theorem allocStep_preserves_slotsUnique {s s' : AppState}
    (hstep : AllocStep s s') (hinv : SlotsUnique s.registrations) :
    SlotsUnique s'.registrations := by
  cases hstep with
  | student stu t expired pass regId today d tm room s2 reg hw h =>
    obtain ⟨-, hconf⟩ := studentBook_ok h
    obtain ⟨-, -, -, hreg, hs2⟩ := studentConfirm_ok hconf
    subst hreg hs2
    exact slotsUnique_append hinv (no_clash_of_free_room hw)
  | guest t gn gp d tm room regId now today s2 reg hw h =>
    obtain ⟨-, hconf⟩ := guestBook_ok h
    obtain ⟨-, -, hreg, hs2⟩ := guestConfirm_ok hconf
    subst hreg hs2
    by_cases hsp : isSpeakingModule t.test_type = true
    · rw [if_pos hsp]
      exact slotsUnique_append hinv (no_clash_of_free_room hw)
    · rw [if_neg hsp]
      exact slotsUnique_append hinv (no_clash_of_free_room (fun hne => absurd rfl hne))

/-- Any sequence of successful allocations keeps the speaking-slot
uniqueness invariant. -/
theorem allocReachable_preserves_slotsUnique {s s' : AppState}
    (hreach : AllocReachable s s') (hinv : SlotsUnique s.registrations) :
    SlotsUnique s'.registrations := by
  induction hreach with
  | refl => exact hinv
  | step s1 s2 hr hstep ih => exact allocStep_preserves_slotsUnique hstep ih

/-- C1, amended.  A student confirm against a session at or above capacity
fails: with the correct password it fails with the capacity error, and with
any password it is never a success and leaves the state untouched.  On the
guest side the only capacity guard is the session list filter: a session at
or above capacity is not listed, so a whole guest attempt fails with no
effects; the guest confirm handler itself holds no capacity check (see the
counterexample). -/
theorem capacity_guards_fail_attempts :
    (∀ (s : AppState) (student : Student) (t : TestSchedule) (regId today d tm room : String),
      t.current_registrations ≥ t.max_capacity →
        studentConfirm s student t student.password regId today d tm room = .error .full)
    ∧ (∀ (s : AppState) (student : Student) (t : TestSchedule) (pass regId today d tm room : String),
        t.current_registrations ≥ t.max_capacity →
          stateAfter s (studentConfirm s student t pass regId today d tm room) = s ∧
          ∀ res, studentConfirm s student t pass regId today d tm room ≠ .ok res)
    ∧ (∀ t : TestSchedule, t.current_registrations ≥ t.max_capacity → paidBookable t = false)
    ∧ (∀ (s : AppState) (t : TestSchedule) (gn gp d tm room regId : String) (now : Nat) (today : String),
        t.current_registrations ≥ t.max_capacity →
          guestBook s t gn gp d tm room regId now today = .error .notListed ∧
          stateAfter s (guestBook s t gn gp d tm room regId now today) = s) := by
  have hfull : ∀ (s : AppState) (student : Student) (t : TestSchedule)
      (regId today d tm room : String), t.current_registrations ≥ t.max_capacity →
        studentConfirm s student t student.password regId today d tm room = .error .full := by
    intro s student t regId today d tm room hcap
    unfold studentConfirm
    rw [if_neg (by simp), if_pos hcap]
  have hbook : ∀ t : TestSchedule, t.current_registrations ≥ t.max_capacity →
      paidBookable t = false := by
    intro t hcap
    unfold paidBookable
    rw [decide_eq_false (Nat.not_lt.mpr hcap)]
    simp
  refine ⟨hfull, ?_, hbook, ?_⟩
  · intro s student t pass regId today d tm room hcap
    by_cases hpw : pass = student.password
    · subst hpw
      rw [hfull s student t regId today d tm room hcap]
      exact ⟨rfl, fun res h => Except.noConfusion h⟩
    · have hinc : studentConfirm s student t pass regId today d tm room = .error .incorrect := by
        unfold studentConfirm
        rw [if_pos hpw]
      rw [hinc]
      exact ⟨rfl, fun res h => Except.noConfusion h⟩
  · intro s t gn gp d tm room regId now today hcap
    have hnl : guestBook s t gn gp d tm room regId now today = .error .notListed := by
      unfold guestBook
      rw [hbook t hcap]
      rfl
    rw [hnl]
    exact ⟨rfl, rfl⟩

/-- C1 witness: the amended theorem applied to the concrete full session of
the sample state, for a student attempt and a guest attempt. -/
theorem capacity_guards_fail_attempts_witness :
    sampleFullTest.current_registrations ≥ sampleFullTest.max_capacity
    ∧ studentConfirm sampleState sampleStudent sampleFullTest sampleStudent.password "R5"
        "2024-06-02" "" "" "" = .error .full
    ∧ paidBookable sampleFullTest = false
    ∧ guestBook sampleState sampleFullTest "Guest One" "0171" "" "" "" "R6" 5 "2024-06-02"
        = .error .notListed :=
  ⟨by decide,
   capacity_guards_fail_attempts.1 sampleState sampleStudent sampleFullTest "R5" "2024-06-02"
     "" "" "" (by decide),
   capacity_guards_fail_attempts.2.2.1 sampleFullTest (by decide),
   (capacity_guards_fail_attempts.2.2.2 sampleState sampleFullTest "Guest One" "0171" "" "" ""
     "R6" 5 "2024-06-02" (by decide)).1⟩

/-- C1 counterexample: the guest confirm handler, invoked on a session
already at capacity, does not fail: it creates the booking and pushes the
registration counter past the maximum, so an allocation attempt against a
full session does not always fail with a capacity error and zero effects. -/
theorem guestConfirm_overbooks_full_session :
    sampleFullTest.current_registrations ≥ sampleFullTest.max_capacity
    ∧ guestConfirm sampleState sampleFullTest "Guest One" "0171" "" "" "" "R2" 5 "2024-06-02"
        = .ok (stateAfter sampleState
            (guestConfirm sampleState sampleFullTest "Guest One" "0171" "" "" "" "R2" 5 "2024-06-02"),
          mkGuestReg "R2" sampleFullTest "2024-06-02" "Guest One" "0171" none 5)
    ∧ (stateAfter sampleState
        (guestConfirm sampleState sampleFullTest "Guest One" "0171" "" "" "" "R2" 5 "2024-06-02")).registrations.length = 1
    ∧ getTest (stateAfter sampleState
        (guestConfirm sampleState sampleFullTest "Guest One" "0171" "" "" "" "R2" 5 "2024-06-02"))
        "T2" = some { sampleFullTest with current_registrations := 2 } :=
  ⟨by decide, rfl, by decide, by decide⟩

/-- C2: a successful student booking creates exactly one Confirmed booking
carrying the chosen speaking date and time and the resolved room when the
module is Speaking or Mock, bumps the target session counter by exactly
one, and decrements the student's balance for the session's module type by
exactly one. -/
theorem student_booking_success_effects
    {s : AppState} {student : Student} {t : TestSchedule}
    {pass regId today d tm room : String} {s' : AppState} {reg : Registration}
    (h : studentConfirm s student t pass regId today d tm room = .ok (s', reg))
    (hw : tm ≠ "" → findFreeRoom s.registrations t.test_id d tm = some room)
    (ht : getTest s t.test_id = some t)
    (hst : getStudent s student.user_id = some student) :
    reg.status = RegistrationStatus.CONFIRMED
    ∧ s'.registrations = s.registrations ++ [reg]
    ∧ (isSpeakingModule t.test_type = true →
        reg.speaking_date = d ∧ reg.speaking_time = tm ∧ reg.speaking_room = room ∧
        findFreeRoom s.registrations t.test_id d tm = some reg.speaking_room)
    ∧ getTest s' t.test_id = some { t with current_registrations := t.current_registrations + 1 }
    ∧ getStudent s' student.user_id =
        some { student with remaining_tests := decrementBalance student.remaining_tests t.test_type }
    ∧ balanceOf (decrementBalance student.remaining_tests t.test_type) t.test_type =
        balanceOf student.remaining_tests t.test_type - 1 := by
  obtain ⟨hpw, hcap, hslot, hreg, hs'⟩ := studentConfirm_ok h
  subst hreg hs'
  refine ⟨rfl, rfl, ?_, ?_, ?_, ?_⟩
  · intro hsp
    obtain ⟨hd, htm⟩ := hslot hsp
    exact ⟨rfl, rfl, rfl, hw htm⟩
  · have hpres : ∀ x : TestSchedule,
        ((if x.test_id == t.test_id then
            { x with current_registrations := x.current_registrations + 1 } else x).test_id ==
          t.test_id) = (x.test_id == t.test_id) := by
      intro x
      by_cases hx : x.test_id = t.test_id <;> simp [hx]
    unfold getTest at ht ⊢
    unfold applyStudentBooking
    simp only
    rw [find?_map_eq _ _ hpres s.tests, ht]
    simp
  · have hpres : ∀ st : Student,
        ((if st.user_id == student.user_id then
            { st with remaining_tests := decrementBalance st.remaining_tests t.test_type }
          else st).user_id == student.user_id) = (st.user_id == student.user_id) := by
      intro st
      by_cases hx : st.user_id = student.user_id <;> simp [hx]
    unfold getStudent at hst ⊢
    unfold applyStudentBooking
    simp only
    rw [find?_map_eq _ _ hpres s.students, hst]
    simp
  · cases t.test_type <;> simp [balanceOf, decrementBalance]

/-- C2 witness: the success effects at the sample state, student and Mock
session, with the first speaking date and time and the first room. -/
theorem student_booking_success_effects_witness :
    wStudentRes = .ok (wState2, wReg)
    ∧ wReg.status = RegistrationStatus.CONFIRMED
    ∧ getTest wState2 sampleMockTest.test_id =
        some { sampleMockTest with current_registrations := 1 }
    ∧ getStudent wState2 sampleStudent.user_id =
        some { sampleStudent with
                remaining_tests := decrementBalance sampleStudent.remaining_tests TestType.MOCK } := by
  have h : studentConfirm sampleState sampleStudent sampleMockTest "pw1" "R1" "2024-06-01"
      "2024-06-14" "10:40 AM" "Room No: 01" = .ok (wState2, wReg) := rfl
  have hall := student_booking_success_effects h (fun _ => by decide) (by decide) (by decide)
  exact ⟨h, hall.1, hall.2.2.2.1, hall.2.2.2.2.1⟩

/-- C3: the speaking-slot uniqueness invariant holds in every state
reachable by successful allocations from a state satisfying it, and each
single successful allocation preserves it. -/
theorem speaking_slot_uniqueness_invariant :
    (∀ s s' : AppState, AllocStep s s' → SlotsUnique s.registrations → SlotsUnique s'.registrations)
    ∧ ∀ s s' : AppState, AllocReachable s s' → SlotsUnique s.registrations →
        SlotsUnique s'.registrations :=
  ⟨fun _ _ hstep hinv => allocStep_preserves_slotsUnique hstep hinv,
   fun _ _ hreach hinv => allocReachable_preserves_slotsUnique hreach hinv⟩

/-- C3 witness: the invariant transported across one concrete successful
student allocation from the sample state, whose registration list is
empty. -/
theorem speaking_slot_uniqueness_invariant_witness :
    SlotsUnique wState2.registrations :=
  speaking_slot_uniqueness_invariant.2 sampleState wState2
    (AllocReachable.step sampleState sampleState wState2 (AllocReachable.refl sampleState)
      (AllocStep.student sampleState sampleStudent sampleMockTest false "pw1" "R1" "2024-06-01"
        "2024-06-14" "10:40 AM" "Room No: 01" wState2 wReg (fun _ => by decide) rfl))
    List.Pairwise.nil

/-- C6: a whole student booking attempt succeeds only when the student's
balance for the session's module type is strictly positive and the student
holds no booking for that session; when either condition fails the attempt
fails with the initiation guard and the state is untouched. -/
theorem student_eligibility_guards :
    (∀ (s : AppState) (student : Student) (t : TestSchedule) (expired : Bool)
       (pass regId today d tm room : String) (s' : AppState) (reg : Registration),
      studentBook s student t expired pass regId today d tm room = .ok (s', reg) →
        0 < balanceOf student.remaining_tests t.test_type ∧
        registeredFor s.registrations student.user_id t.test_id = false)
    ∧ (∀ (s : AppState) (student : Student) (t : TestSchedule) (expired : Bool)
        (pass regId today d tm room : String),
        (balanceOf student.remaining_tests t.test_type ≤ 0 ∨
          registeredFor s.registrations student.user_id t.test_id = true) →
        studentBook s student t expired pass regId today d tm room = .error .notInitiable ∧
        stateAfter s (studentBook s student t expired pass regId today d tm room) = s) := by
  constructor
  · intro s student t expired pass regId today d tm room s' reg h
    obtain ⟨hcan, -⟩ := studentBook_ok h
    unfold canInitiateStudent at hcan
    simp only [Bool.and_eq_true, Bool.not_eq_true', decide_eq_false_iff_not, not_le] at hcan
    obtain ⟨⟨⟨⟨⟨hdel, hregd⟩, hbal⟩, hcl⟩, hexp⟩, hcapf⟩ := hcan
    exact ⟨hbal, hregd⟩
  · intro s student t expired pass regId today d tm room hbad
    have hc : canInitiateStudent s student t expired = false := by
      unfold canInitiateStudent
      rcases hbad with h | h
      · rw [decide_eq_true h]
        simp
      · rw [h]
        simp
    have herr : studentBook s student t expired pass regId today d tm room = .error .notInitiable := by
      unfold studentBook
      rw [hc]
      rfl
    rw [herr]
    exact ⟨rfl, rfl⟩

/-- C6 witness: the guards at concrete inputs: a successful booking by the
funded student, and a rejected attempt by the student with exhausted
balances. -/
theorem student_eligibility_guards_witness :
    (0 < balanceOf sampleStudent.remaining_tests sampleMockTest.test_type
      ∧ registeredFor sampleState.registrations sampleStudent.user_id sampleMockTest.test_id = false)
    ∧ (balanceOf sampleBrokeStudent.remaining_tests sampleMockTest.test_type ≤ 0
      ∧ studentBook sampleState sampleBrokeStudent sampleMockTest false "pw1" "R9" "2024-06-01"
          "" "" "" = .error .notInitiable) :=
  ⟨student_eligibility_guards.1 sampleState sampleStudent sampleMockTest false "pw1" "R1"
      "2024-06-01" "2024-06-14" "10:40 AM" "Room No: 01" wState2 wReg rfl,
   by decide,
   (student_eligibility_guards.2 sampleState sampleBrokeStudent sampleMockTest false "pw1" "R9"
      "2024-06-01" "" "" "" (Or.inl (by decide))).1⟩

/-- C5, amended.  On the student path a Mock or Speaking booking with no
chosen date or no chosen time fails with the select-speaking error and no
effects, and never succeeds; under the interface's slot wiring a chosen
time always comes with a resolved free room, so when no free room exists
for the chosen pair the attempt cannot succeed either.  On the guest path
no slot condition is checked at all: a Mock or Speaking guest booking with
nothing selected succeeds and stores a booking with an empty speaking
assignment (see the counterexample). -/
theorem speaking_slot_requirement :
    (∀ (s : AppState) (student : Student) (t : TestSchedule) (regId today d tm room : String),
      t.current_registrations < t.max_capacity →
      isSpeakingModule t.test_type = true → (d = "" ∨ tm = "") →
        studentConfirm s student t student.password regId today d tm room = .error .selectSpeaking ∧
        stateAfter s (studentConfirm s student t student.password regId today d tm room) = s)
    ∧ (∀ (s : AppState) (student : Student) (t : TestSchedule) (pass regId today d tm room : String),
        isSpeakingModule t.test_type = true → (d = "" ∨ tm = "") →
        ∀ res, studentConfirm s student t pass regId today d tm room ≠ .ok res)
    ∧ (∀ (s : AppState) (student : Student) (t : TestSchedule) (pass regId today d tm room : String),
        (tm ≠ "" → findFreeRoom s.registrations t.test_id d tm = some room) →
        isSpeakingModule t.test_type = true →
        findFreeRoom s.registrations t.test_id d tm = none →
        ∀ res, studentConfirm s student t pass regId today d tm room ≠ .ok res)
    ∧ (∀ (s : AppState) (t : TestSchedule) (gn gp regId : String) (now : Nat) (today : String),
        gn ≠ "" → gp ≠ "" → isSpeakingModule t.test_type = true →
        guestConfirm s t gn gp "" "" "" regId now today =
          .ok ({ s with
                  registrations := s.registrations ++
                    [mkGuestReg regId t today gn gp (some ("", "", "")) now]
                  tests := s.tests.map fun x =>
                    if x.test_id == t.test_id then
                      { x with current_registrations := x.current_registrations + 1 }
                    else x },
               mkGuestReg regId t today gn gp (some ("", "", "")) now) ∧
          ¬HasAssignment (mkGuestReg regId t today gn gp (some ("", "", "")) now)) := by
  refine ⟨?_, ?_, ?_, ?_⟩
  · intro s student t regId today d tm room hcap hsp hmiss
    have herr : studentConfirm s student t student.password regId today d tm room =
        .error .selectSpeaking := by
      unfold studentConfirm
      rw [if_neg (by simp), if_neg (Nat.not_le.mpr hcap), if_pos]
      rw [hsp]
      rcases hmiss with h | h <;> simp [h]
    rw [herr]
    exact ⟨rfl, rfl⟩
  · intro s student t pass regId today d tm room hsp hmiss res h
    obtain ⟨s', reg⟩ := res
    obtain ⟨-, -, hslot, -, -⟩ := studentConfirm_ok h
    obtain ⟨hd, htm⟩ := hslot hsp
    rcases hmiss with hh | hh
    · exact hd hh
    · exact htm hh
  · intro s student t pass regId today d tm room hw hsp hnone res h
    obtain ⟨s', reg⟩ := res
    obtain ⟨-, -, hslot, -, -⟩ := studentConfirm_ok h
    obtain ⟨hd, htm⟩ := hslot hsp
    rw [hw htm] at hnone
    exact Option.noConfusion hnone
  · intro s t gn gp regId now today hgn hgp hsp
    constructor
    · unfold guestConfirm
      rw [if_neg (by simp [hgn, hgp]), if_pos hsp]
    · intro hass
      exact hass.1 rfl

/-- C5 counterexample: a guest confirm on a Mock session with no speaking
slot selected does not fail: it books the session with an empty speaking
assignment and increments the counter. -/
theorem guestConfirm_allows_missing_slot :
    isSpeakingModule sampleMockTest.test_type = true
    ∧ sampleMockTest.current_registrations < sampleMockTest.max_capacity
    ∧ guestConfirm sampleState sampleMockTest "Guest Two" "0172" "" "" "" "R3" 9 "2024-06-02"
        = .ok (stateAfter sampleState
            (guestConfirm sampleState sampleMockTest "Guest Two" "0172" "" "" "" "R3" 9 "2024-06-02"),
          mkGuestReg "R3" sampleMockTest "2024-06-02" "Guest Two" "0172" (some ("", "", "")) 9)
    ∧ (stateAfter sampleState
        (guestConfirm sampleState sampleMockTest "Guest Two" "0172" "" "" "" "R3" 9 "2024-06-02")).registrations.length = 1
    ∧ getTest (stateAfter sampleState
        (guestConfirm sampleState sampleMockTest "Guest Two" "0172" "" "" "" "R3" 9 "2024-06-02"))
        "T1" = some { sampleMockTest with current_registrations := 1 } :=
  ⟨rfl, by decide, rfl, by decide, by decide⟩

/-- C5 witness: the student-side slot requirement applied to the sample
Mock session with nothing selected. -/
theorem speaking_slot_requirement_witness :
    isSpeakingModule sampleMockTest.test_type = true
    ∧ studentConfirm sampleState sampleStudent sampleMockTest sampleStudent.password "R7"
        "2024-06-01" "" "" "" = .error .selectSpeaking :=
  ⟨rfl,
   (speaking_slot_requirement.1 sampleState sampleStudent sampleMockTest "R7" "2024-06-01"
     "" "" "" (by decide) rfl (Or.inl rfl)).1⟩

/-- C8: a guest booking of a listed session with a non-empty name and phone
succeeds; no student record is read or modified, and the booking's subject
reference is the freshly generated guest identifier, distinct from every
registered student id whenever no student id uses the guest tag. -/
theorem guest_booking_no_balance :
    (∀ (s : AppState) (t : TestSchedule) (gn gp d tm room regId : String) (now : Nat)
       (today : String),
      paidBookable t = true → gn ≠ "" → gp ≠ "" →
        ∃ s' reg, guestBook s t gn gp d tm room regId now today = .ok (s', reg))
    ∧ (∀ (s : AppState) (t : TestSchedule) (gn gp d tm room regId : String) (now : Nat)
        (today : String) (s' : AppState) (reg : Registration),
        guestBook s t gn gp d tm room regId now today = .ok (s', reg) →
        (∀ st ∈ s.students, ¬isGuestGenerated st.user_id) →
          t.current_registrations < t.max_capacity
          ∧ s'.students = s.students
          ∧ reg.user_id = "GUEST-" ++ toString now
          ∧ isGuestGenerated reg.user_id
          ∧ ∀ st ∈ s.students, reg.user_id ≠ st.user_id) := by
  constructor
  · intro s t gn gp d tm room regId now today hpb hgn hgp
    unfold guestBook guestConfirm
    rw [hpb]
    rw [if_neg (by simp), if_neg (by simp [hgn, hgp])]
    exact ⟨_, _, rfl⟩
  · intro s t gn gp d tm room regId now today s' reg h hids
    obtain ⟨hpb, hconf⟩ := guestBook_ok h
    obtain ⟨-, -, hreg, hs'⟩ := guestConfirm_ok hconf
    subst hreg hs'
    have hcap : t.current_registrations < t.max_capacity := by
      unfold paidBookable at hpb
      simp only [Bool.and_eq_true, Bool.not_eq_true', decide_eq_true_eq] at hpb
      exact hpb.2
    refine ⟨hcap, rfl, rfl, ⟨toString now, rfl⟩, ?_⟩
    intro st hst heq
    exact hids st hst (heq ▸ ⟨toString now, rfl⟩)

/-- C8 witness: the guest success and its properties at the sample open
Listening session. -/
theorem guest_booking_no_balance_witness :
    wGuestRes = .ok (wGuestState, wGuestReg)
    ∧ wGuestState.students = sampleState.students
    ∧ wGuestReg.user_id = "GUEST-" ++ toString 11
    ∧ isGuestGenerated wGuestReg.user_id := by
  have h : guestBook sampleState sampleListeningTest "Guest Three" "0173" "" "" "" "R4" 11
      "2024-06-02" = .ok (wGuestState, wGuestReg) := rfl
  have hids : ∀ st ∈ sampleState.students, ¬isGuestGenerated st.user_id := by
    intro st hst hg
    have hst' : st = sampleStudent := by
      have he : sampleState.students = [sampleStudent] := rfl
      rw [he, List.mem_singleton] at hst
      exact hst
    subst hst'
    obtain ⟨rest, heq⟩ := hg
    have heq' : ("S1" : String) = "GUEST-" ++ rest := heq
    have hlen := congrArg (fun x => x.data.length) heq'
    simp [String.data_append] at hlen
  have hall := guest_booking_no_balance.2 sampleState sampleListeningTest "Guest Three" "0173"
    "" "" "" "R4" 11 "2024-06-02" wGuestState wGuestReg h hids
  exact ⟨h, hall.2.1, hall.2.2.1, hall.2.2.2.1⟩

/-- C9: a successful booking mutates only its own targets.  A student
booking leaves admins, results and the lock flag alone, only appends to the
registrations, bumps only the counter of sessions with the target id while
keeping their other fields and every other session whole, touches only the
booker among students and only the booked module's counter in the booker's
balances.  A guest booking additionally leaves every student record
unchanged. -/
theorem booking_frame_conditions :
    (∀ (s : AppState) (student : Student) (t : TestSchedule)
       (pass regId today d tm room : String) (s' : AppState) (reg : Registration),
      studentConfirm s student t pass regId today d tm room = .ok (s', reg) →
        s'.admins = s.admins
        ∧ s'.results = s.results
        ∧ s'.isSystemLocked = s.isSystemLocked
        ∧ s'.registrations = s.registrations ++ [reg]
        ∧ List.Forall₂ (fun x x' : TestSchedule =>
            (x.test_id ≠ t.test_id → x' = x) ∧
            (x.test_id = t.test_id →
              x' = { x with current_registrations := x.current_registrations + 1 }))
            s.tests s'.tests
        ∧ List.Forall₂ (fun st st' : Student =>
            (st.user_id ≠ student.user_id → st' = st) ∧
            (st.user_id = student.user_id →
              st' = { st with remaining_tests := decrementBalance st.remaining_tests t.test_type }))
            s.students s'.students
        ∧ ∀ (r : RemainingTests) (ty : TestType), ty ≠ t.test_type →
            balanceOf (decrementBalance r t.test_type) ty = balanceOf r ty)
    ∧ (∀ (s : AppState) (t : TestSchedule) (gn gp d tm room regId : String) (now : Nat)
        (today : String) (s' : AppState) (reg : Registration),
        guestConfirm s t gn gp d tm room regId now today = .ok (s', reg) →
          s'.students = s.students
          ∧ s'.admins = s.admins
          ∧ s'.results = s.results
          ∧ s'.isSystemLocked = s.isSystemLocked
          ∧ s'.registrations = s.registrations ++ [reg]
          ∧ List.Forall₂ (fun x x' : TestSchedule =>
              (x.test_id ≠ t.test_id → x' = x) ∧
              (x.test_id = t.test_id →
                x' = { x with current_registrations := x.current_registrations + 1 }))
              s.tests s'.tests) := by
  have htests : ∀ (s : AppState) (t : TestSchedule),
      List.Forall₂ (fun x x' : TestSchedule =>
        (x.test_id ≠ t.test_id → x' = x) ∧
        (x.test_id = t.test_id →
          x' = { x with current_registrations := x.current_registrations + 1 }))
        s.tests (s.tests.map fun x =>
          if x.test_id == t.test_id then
            { x with current_registrations := x.current_registrations + 1 }
          else x) := by
    intro s t
    apply forall2_map_self
    intro x
    constructor
    · intro hne
      rw [if_neg (by simp [hne])]
    · intro heq
      rw [if_pos (by simp [heq])]
  constructor
  · intro s student t pass regId today d tm room s' reg h
    obtain ⟨-, -, -, hreg, hs'⟩ := studentConfirm_ok h
    subst hs'
    refine ⟨rfl, rfl, rfl, rfl, htests s t, ?_, ?_⟩
    · apply forall2_map_self
      intro st
      constructor
      · intro hne
        rw [if_neg (by simp [hne])]
      · intro heq
        rw [if_pos (by simp [heq])]
    · intro r ty hne
      cases hty : t.test_type <;> cases ty <;> simp_all [balanceOf, decrementBalance]
  · intro s t gn gp d tm room regId now today s' reg h
    obtain ⟨-, -, hreg, hs'⟩ := guestConfirm_ok h
    subst hs'
    exact ⟨rfl, rfl, rfl, rfl, rfl, htests s t⟩

/-- C9 witness: the frame read off the sample student booking and the
sample guest booking. -/
theorem booking_frame_conditions_witness :
    (wState2.admins = sampleState.admins
      ∧ wState2.results = sampleState.results
      ∧ wState2.registrations = sampleState.registrations ++ [wReg])
    ∧ wGuestState.students = sampleState.students := by
  have h1 := booking_frame_conditions.1 sampleState sampleStudent sampleMockTest "pw1" "R1"
    "2024-06-01" "2024-06-14" "10:40 AM" "Room No: 01" wState2 wReg rfl
  have h2 := booking_frame_conditions.2 sampleState sampleListeningTest "Guest Three" "0173"
    "" "" "" "R4" 11 "2024-06-02" wGuestState wGuestReg rfl
  exact ⟨⟨h1.1, h1.2.1, h1.2.2.2.1⟩, h2.1⟩

/-- C10: allocation effects are password-gated: a confirm with a password
different from the student's stored one fails with the incorrect-password
error and leaves the state untouched, and any successful confirm used the
stored password. -/
theorem password_gate :
    (∀ (s : AppState) (student : Student) (t : TestSchedule) (pass regId today d tm room : String),
      pass ≠ student.password →
        studentConfirm s student t pass regId today d tm room = .error .incorrect ∧
        stateAfter s (studentConfirm s student t pass regId today d tm room) = s)
    ∧ (∀ (s : AppState) (student : Student) (t : TestSchedule)
        (pass regId today d tm room : String) (s' : AppState) (reg : Registration),
        studentConfirm s student t pass regId today d tm room = .ok (s', reg) →
          pass = student.password) := by
  constructor
  · intro s student t pass regId today d tm room hne
    have herr : studentConfirm s student t pass regId today d tm room = .error .incorrect := by
      unfold studentConfirm
      rw [if_pos hne]
    rw [herr]
    exact ⟨rfl, rfl⟩
  · intro s student t pass regId today d tm room s' reg h
    exact (studentConfirm_ok h).1

/-- C4, amended.  For a Mock session the candidate speaking dates are the
calendar day before and the calendar day after the session date, in that
order; for every other module type, Speaking included, the list holds
exactly the session date — it is not empty for Listening, Reading or
Writing.  A Mock session dated 2024-06-15 yields exactly 2024-06-14 and
2024-06-16, and the day shifts move strictly backward and forward in
calendar order on any valid date. -/
theorem testSpeakingDates_characterization :
    (∀ t : TestSchedule, t.test_type = TestType.MOCK →
      testSpeakingDates t = [prevDayISO t.test_date, nextDayISO t.test_date])
    ∧ (∀ t : TestSchedule, t.test_type ≠ TestType.MOCK →
        testSpeakingDates t = [t.test_date])
    ∧ (∀ t : TestSchedule, t.test_type = TestType.MOCK → t.test_date = "2024-06-15" →
        testSpeakingDates t = ["2024-06-14", "2024-06-16"])
    ∧ (∀ y m d : Nat, 1 ≤ y → 1 ≤ m → m ≤ 12 → 1 ≤ d → d ≤ daysInMonth y m →
        dateTripleLt (prevCalendarDay (y, m, d)) (y, m, d) ∧
        dateTripleLt (y, m, d) (nextCalendarDay (y, m, d))) := by
  refine ⟨?_, ?_, ?_, ?_⟩
  · intro t h
    unfold testSpeakingDates
    rw [if_pos h]
  · intro t h
    unfold testSpeakingDates
    rw [if_neg h]
  · intro t h hd
    unfold testSpeakingDates
    rw [if_pos h, hd]
    decide
  · intro y m d hy hm1 hm2 hd1 hd2
    constructor
    · simp only [prevCalendarDay]
      split_ifs with h1 h2
      · show y < y ∨ (y = y ∧ (m < m ∨ (m = m ∧ d - 1 < d)))
        omega
      · show y < y ∨ (y = y ∧ (m - 1 < m ∨ (m - 1 = m ∧ daysInMonth y (m - 1) < d)))
        omega
      · show y - 1 < y ∨ (y - 1 = y ∧ (12 < m ∨ (12 = m ∧ 31 < d)))
        omega
    · simp only [nextCalendarDay]
      split_ifs with h1 h2
      · show y < y ∨ (y = y ∧ (m < m ∨ (m = m ∧ d < d + 1)))
        omega
      · show y < y ∨ (y = y ∧ (m < m + 1 ∨ (m = m + 1 ∧ d < 1)))
        omega
      · show y < y + 1 ∨ (y = y + 1 ∧ (m < 1 ∨ (m = 1 ∧ d < 1)))
        omega

/-- C4 counterexample: for a Listening session the candidate-date list is
the session date, not the empty sequence. -/
theorem testSpeakingDates_listening_not_empty :
    testSpeakingDates sampleListeningTest = ["2024-06-15"]
    ∧ testSpeakingDates sampleListeningTest ≠ ([] : List String) :=
  ⟨by decide, by decide⟩

/-- C4 witness: the characterization applied to the sample Mock session
dated 2024-06-15, to the sample Listening session, and to the concrete
date triple. -/
theorem testSpeakingDates_characterization_witness :
    testSpeakingDates sampleMockTest = ["2024-06-14", "2024-06-16"]
    ∧ testSpeakingDates sampleFullTest = [sampleFullTest.test_date]
    ∧ dateTripleLt (prevCalendarDay (2024, 6, 15)) (2024, 6, 15) :=
  ⟨testSpeakingDates_characterization.2.2.1 sampleMockTest rfl rfl,
   testSpeakingDates_characterization.2.1 sampleFullTest (by decide),
   (testSpeakingDates_characterization.2.2.2 2024 6 15 (by decide) (by decide) (by decide)
     (by decide) (by decide)).1⟩

/-- The encoded slot-key containment used by the code agrees with the
spec-level triple test whenever the stored dates and rooms and the queried
date and room are free of the bar separator. -/
theorem roomTaken_eq_contains {regs : List Registration} {testId d tm r : String}
    (hregs : BarFreeRegs regs) (hd : BarFree d) (hr : BarFree r) :
    (occupiedSlots regs testId).contains (slotKey d r tm) = roomTaken regs testId d tm r := by
  have hiff : (occupiedSlots regs testId).contains (slotKey d r tm) = true ↔
      roomTaken regs testId d tm r = true := by
    rw [contains_eq_true_iff_mem, mem_occupiedSlots_iff]
    unfold roomTaken
    rw [List.any_eq_true]
    constructor
    · rintro ⟨reg, hreg, hid, hdne, htne, hrne, hkey⟩
      obtain ⟨hbd, hbr⟩ := hregs reg hreg
      obtain ⟨h1, h2, h3⟩ := slotKey_inj hbd hd hbr hr hkey
      rw [h1] at hdne
      rw [h2] at hrne
      rw [h3] at htne
      refine ⟨reg, hreg, ?_⟩
      simp [hid, hdne, htne, hrne, h1, h2, h3]
    · rintro ⟨reg, hreg, hcond⟩
      simp only [Bool.and_eq_true, beq_iff_eq, bne_iff_ne, ne_eq] at hcond
      obtain ⟨⟨⟨⟨⟨⟨hid, hdne⟩, htne⟩, hrne⟩, hdeq⟩, hreq⟩, hteq⟩ := hcond
      exact ⟨reg, hreg, hid, hdne, htne, hrne, by rw [hdeq, hreq, hteq]⟩
  cases h1 : (occupiedSlots regs testId).contains (slotKey d r tm) <;>
    cases h2 : roomTaken regs testId d tm r <;> simp_all

/-- C7: room resolution scans the fixed room list in its fixed order and
returns the first room for which no booking of the session carries the
identical (date, room, time) triple, and none when all three rooms are
taken; with no prior speaking assignments it returns the first room. -/
theorem findFreeRoom_first_free_room :
    (∀ (regs : List Registration) (testId d tm : String), BarFreeRegs regs → BarFree d →
      findFreeRoom regs testId d tm =
        if roomTaken regs testId d tm "Room No: 01" = false then some "Room No: 01"
        else if roomTaken regs testId d tm "Room No: 02" = false then some "Room No: 02"
        else if roomTaken regs testId d tm "Room No: 03" = false then some "Room No: 03"
        else none)
    ∧ (∀ (regs : List Registration) (testId d tm : String),
        (∀ reg ∈ regs, reg.test_id = testId → ¬HasAssignment reg) →
        findFreeRoom regs testId d tm = some "Room No: 01") := by
  constructor
  · intro regs testId d tm hregs hd
    have e1 := @roomTaken_eq_contains regs testId d tm "Room No: 01" hregs hd (by decide)
    have e2 := @roomTaken_eq_contains regs testId d tm "Room No: 02" hregs hd (by decide)
    have e3 := @roomTaken_eq_contains regs testId d tm "Room No: 03" hregs hd (by decide)
    simp only [findFreeRoom, SPEAKING_ROOMS, List.find?]
    rw [e1, e2, e3]
    cases h1 : roomTaken regs testId d tm "Room No: 01" <;>
      cases h2 : roomTaken regs testId d tm "Room No: 02" <;>
      cases h3 : roomTaken regs testId d tm "Room No: 03" <;>
      simp [h1, h2, h3]
  · intro regs testId d tm hno
    have hemp : occupiedSlots regs testId = [] := by
      unfold occupiedSlots
      rw [List.map_eq_nil_iff, List.filter_eq_nil_iff]
      intro reg hreg hcond
      simp only [Bool.and_eq_true, beq_iff_eq, bne_iff_ne, ne_eq] at hcond
      obtain ⟨⟨⟨hid, hdne⟩, htne⟩, hrne⟩ := hcond
      exact hno reg hreg hid ⟨hdne, htne, hrne⟩
    simp [findFreeRoom, hemp, SPEAKING_ROOMS, List.find?, List.contains]

/-- C7 witness: the scan applied to the one-booking list left by the sample
student allocation, in which the first room of the first Mock slot is
taken, and to the empty booking list. -/
theorem findFreeRoom_first_free_room_witness :
    (findFreeRoom [wReg] "T1" "2024-06-14" "10:40 AM" =
      if roomTaken [wReg] "T1" "2024-06-14" "10:40 AM" "Room No: 01" = false then some "Room No: 01"
      else if roomTaken [wReg] "T1" "2024-06-14" "10:40 AM" "Room No: 02" = false then some "Room No: 02"
      else if roomTaken [wReg] "T1" "2024-06-14" "10:40 AM" "Room No: 03" = false then some "Room No: 03"
      else none)
    ∧ findFreeRoom [wReg] "T1" "2024-06-14" "10:40 AM" = some "Room No: 02"
    ∧ findFreeRoom [] "T1" "2024-06-14" "10:40 AM" = some "Room No: 01" :=
  ⟨findFreeRoom_first_free_room.1 [wReg] "T1" "2024-06-14" "10:40 AM" (by decide) (by decide),
   by decide,
   findFreeRoom_first_free_room.2 [] "T1" "2024-06-14" "10:40 AM" (by simp)⟩

/-- C10 witness: a wrong password is rejected at the sample inputs, and the
sample success used the stored password. -/
theorem password_gate_witness :
    ("bad" ≠ sampleStudent.password
      ∧ studentConfirm sampleState sampleStudent sampleMockTest "bad" "R9" "2024-06-01" "" "" ""
          = .error .incorrect)
    ∧ "pw1" = sampleStudent.password :=
  ⟨⟨by decide,
    (password_gate.1 sampleState sampleStudent sampleMockTest "bad" "R9" "2024-06-01" "" "" ""
      (by decide)).1⟩,
   password_gate.2 sampleState sampleStudent sampleMockTest "pw1" "R1" "2024-06-01" "2024-06-14"
     "10:40 AM" "Room No: 01" wState2 wReg rfl⟩

end Booking
